import Mathlib

/-!
Shallow embedding of the ShipEntri (DropDeploy) deployment pipeline.

The definitions below translate the TypeScript source:
  * `src/lib/get-session.ts` — `DeploymentService.createDeployment` and
    `DeploymentService.buildAndDeploy`;
  * `src/repositories/deployment.repository.ts` — the entity-store
    operations `update` and `clearSubdomainForOtherDeployments`;
  * `src/services/git/git.service.ts` — `GitService.ensureRepo`;
  * `src/services/docker/docker.service.ts` — `getDockerfileForProject`,
    `buildImage`, `runContainer`, `findAvailablePort`;
  * `src/services/docker/dockerfile.templates.ts` — `DOCKERFILE_TEMPLATES`
    and `CONTAINER_PORTS`;
  * the Docker terminal service — `ALLOWED_COMMANDS`, `validateCommand`,
    `executeCommand`.

External effects (git processes, the Docker daemon, Redis, Prisma row
storage) are modelled as explicit inputs: the entity store is a list of
rows, each external pipeline step is an `Except` value describing how the
real call would have ended, and `Math.random()` draws are explicit numeric
arguments.
-/

namespace ShipEntri

/-- Deployment status values of the Prisma schema (`QUEUED`, `BUILDING`,
`DEPLOYED`, `FAILED`). -/
inductive Status where
  | QUEUED
  | BUILDING
  | DEPLOYED
  | FAILED
deriving DecidableEq, Repr

/-- Build step markers written by the orchestrator while a deployment is
building. -/
inductive BuildStep where
  | CLONING
  | BUILDING_IMAGE
  | STARTING
deriving DecidableEq, Repr

/-- A Deployment row.  Timestamps are abstract `Nat` instants; nullable
columns are `Option`. -/
structure Deployment where
  id : Nat
  projectId : Nat
  status : Status
  buildStep : Option BuildStep
  containerPort : Option Nat
  subdomain : Option String
  logs : Option String
  startedAt : Option Nat
  completedAt : Option Nat
deriving DecidableEq, Repr

/-- A Project row (the fields the pipeline reads). -/
structure Project where
  id : Nat
  userId : Nat
  slug : String
  githubUrl : String
  type : String
  branch : String
deriving DecidableEq, Repr

/-- The entity store's deployment table: a list of rows. -/
abbrev DeploymentTable := List Deployment

/-- `prisma.deployment.findUnique({ where: { id } })`: first row with the
given id. -/
def findDeployment (s : DeploymentTable) (id : Nat) : Option Deployment :=
  s.find? (fun d => d.id = id)

/-- `prisma.project.findUnique({ where: { id } })`. -/
def findProject (ps : List Project) (id : Nat) : Option Project :=
  ps.find? (fun p => p.id = id)

/-- `DeploymentRepository.update(id, data)`: apply a field update to the
row with the given id.  The repository's `update` signature only admits
`status`, `containerPort`, `subdomain`, `buildStep`, `startedAt` and
`completedAt`; every concrete update below is one of those. -/
def updateDeployment (s : DeploymentTable) (id : Nat) (f : Deployment → Deployment) :
    DeploymentTable :=
  s.map (fun d => if d.id = id then f d else d)

/-- The per-row action of `clearSubdomainForOtherDeployments`'s
`updateMany`: null the subdomain of a row matching
`{ projectId, subdomain, id: { not: excludeDeploymentId } }`. -/
def clearPointwise (projectId : Nat) (subdomain : String) (excludeDeploymentId : Nat)
    (d : Deployment) : Deployment :=
  if d.projectId = projectId ∧ d.subdomain = some subdomain ∧ d.id ≠ excludeDeploymentId then
    { d with subdomain := none }
  else d

/-- `DeploymentRepository.clearSubdomainForOtherDeployments`: an
`updateMany` setting `subdomain` to null on every row of the project that
holds the subdomain, excluding the given deployment id. -/
def clearSubdomainForOtherDeployments (s : DeploymentTable) (projectId : Nat)
    (subdomain : String) (excludeDeploymentId : Nat) : DeploymentTable :=
  s.map (clearPointwise projectId subdomain excludeDeploymentId)

/-! ### Dockerfile templates and container ports
(`src/services/docker/dockerfile.templates.ts`) -/

/-- `DOCKERFILE_TEMPLATES.STATIC`. -/
def staticDockerfile : String :=
  "FROM nginx:alpine\nCOPY . /usr/share/nginx/html\nEXPOSE 80\nCMD [\"nginx\", \"-g\", \"daemon off;\"]"

/-- `DOCKERFILE_TEMPLATES.NODEJS`. -/
def nodejsDockerfile : String :=
  "FROM node:22-alpine\nWORKDIR /app\nCOPY package*.json ./\nRUN npm install --omit=dev\nCOPY . .\nEXPOSE 3000\nCMD [\"npm\", \"start\"]"

/-- `DOCKERFILE_TEMPLATES.NEXTJS`. -/
def nextjsDockerfile : String :=
  "FROM node:22-alpine AS builder\nWORKDIR /app\nCOPY package*.json ./\nRUN npm install --omit=dev\nCOPY . .\nENV NEXT_TELEMETRY_DISABLED=1\nRUN npm run build\n\nFROM node:22-alpine AS runner\nWORKDIR /app\nENV NODE_ENV=production\nCOPY --from=builder /app/.next ./.next\nCOPY --from=builder /app/node_modules ./node_modules\nCOPY --from=builder /app/package.json ./package.json\nCOPY --from=builder /app/public ./public\nEXPOSE 3000\nCMD [\"npm\", \"start\"]"

/-- `DOCKERFILE_TEMPLATES.DJANGO`. -/
def djangoDockerfile : String :=
  "FROM python:3.13-slim\nWORKDIR /app\nCOPY requirements.txt ./\nRUN pip install --no-cache-dir -r requirements.txt\nCOPY . .\nEXPOSE 8000\nCMD [\"python\", \"manage.py\", \"runserver\", \"0.0.0.0:8000\"]"

/-- The `DOCKERFILE_TEMPLATES` object as a keyed lookup: `some` exactly on
the four declared keys (`key in DOCKERFILE_TEMPLATES` in the source is
`isSome` here). -/
def DOCKERFILE_TEMPLATES (key : String) : Option String :=
  if key = "STATIC" then some staticDockerfile
  else if key = "NODEJS" then some nodejsDockerfile
  else if key = "NEXTJS" then some nextjsDockerfile
  else if key = "DJANGO" then some djangoDockerfile
  else none

/-- The `CONTAINER_PORTS` record (internal port declared per project
type). -/
def CONTAINER_PORTS (key : String) : Option Nat :=
  if key = "STATIC" then some 80
  else if key = "NODEJS" then some 3000
  else if key = "NEXTJS" then some 3000
  else if key = "DJANGO" then some 8000
  else none

/-! ### Docker service (`src/services/docker/docker.service.ts`) -/

/-- `DockerService.getDockerfileForProject`: use the project's type as the
template key when it is a declared key, otherwise fall back to `STATIC`. -/
def getDockerfileForProject (projectType : String) : String :=
  let key := if (DOCKERFILE_TEMPLATES projectType).isSome then projectType else "STATIC"
  (DOCKERFILE_TEMPLATES key).getD ""

/-- `DockerService.runContainer`'s internal-port choice:
`CONTAINER_PORTS[projectType] ?? 3000`. -/
def runContainerInternalPort (projectType : String) : Nat :=
  (CONTAINER_PORTS projectType).getD 3000

/-- `DockerService.findAvailablePort`: `base + Math.floor(Math.random() * range)`
with `base = 8000`, `range = 2000`.  The `Math.random()` draw is modelled
as an arbitrary natural number reduced modulo the range; no availability
check of any kind is performed. -/
def findAvailablePort (rand : Nat) : Nat :=
  8000 + rand % 2000

/-- How the external world answered the docker build stream inside
`DockerService.buildImage`: a stream-level error handed to the
`followProgress` callback, an error chunk found in the collected output,
whether the post-build `getImage(imageName).inspect()` succeeds, and the
joined tail of the last 20 collected `stream` chunks. -/
structure BuildEnv where
  streamError : Option String
  errorChunk : Option String
  imageExists : Bool
  buildLogTail : String
deriving DecidableEq, Repr

/-- The normalized message thrown by `buildImage` when the build stream
finished without an error but the image does not exist. -/
def noImageMessage : String :=
  "Docker build did not produce an image. For Node.js: ensure package.json has a \"start\" script (e.g. \"node index.js\"). Check your repo and try again."

/-- `DockerService.buildImage`: reject on a stream error, then on an error
chunk (with the log tail appended), then verify the image exists via
inspect; return the image name only when the inspect succeeds. -/
def buildImage (slug : String) (env : BuildEnv) : Except String String :=
  let imageName := "dropdeploy/" ++ slug ++ ":latest"
  match env.streamError with
  | some e => Except.error e
  | none =>
    match env.errorChunk with
    | some msg =>
      Except.error (msg ++ "\n\nBuild output (last 20 lines):\n" ++ env.buildLogTail)
    | none =>
      if env.imageExists then Except.ok imageName
      else Except.error noImageMessage

/-! ### Git service (`src/services/git/git.service.ts`) -/

/-- One git invocation performed by `GitService.ensureRepo`, in order. -/
inductive GitCmd where
  /-- `simpleGit().clone(repoUrl, workDir, ['-b', branch])`. -/
  | clone (repoUrl workDir branch : String)
  /-- `git config remote.origin.fetch +refs/heads/*:refs/remotes/origin/*`. -/
  | setFetchRefspec
  /-- `git.fetch(args)`. -/
  | fetch (args : List String)
  /-- `git.checkout(branch)`. -/
  | checkout (branch : String)
  /-- `git.checkoutBranch(branch, remoteRef)`: create a local tracking
  branch. -/
  | checkoutTracking (branch remoteRef : String)
  /-- `git.reset(['--hard', remoteRef])`. -/
  | resetHard (remoteRef : String)
deriving DecidableEq, Repr

/-- Filesystem and git facts `ensureRepo` branches on: whether
`workDir/.git` exists, whether `workDir/.git/shallow` exists, and whether
the plain `checkout branch` call throws. -/
structure GitEnv where
  gitDirExists : Bool
  shallowFileExists : Bool
  checkoutFails : Bool
deriving DecidableEq, Repr

/-- `GitService.ensureRepo(repoUrl, projectSlug, branch)`: the ordered list
of git commands it issues, plus the returned work directory
(`PROJECTS_DIR/slug`).  When `.git` exists it fixes the fetch refspec,
fetches (`--unshallow --prune` exactly when the shallow marker file
exists, `--prune` otherwise), checks the branch out (creating a tracking
branch from `origin/branch` when the plain checkout throws) and
hard-resets to `origin/branch`; otherwise it performs a single full
clone. -/
def ensureRepo (env : GitEnv) (repoUrl projectsDir slug branch : String) :
    List GitCmd × String :=
  let workDir := projectsDir ++ "/" ++ slug
  if env.gitDirExists then
    let fetchCmd :=
      if env.shallowFileExists then GitCmd.fetch ["origin", "--unshallow", "--prune"]
      else GitCmd.fetch ["origin", "--prune"]
    let checkoutCmds :=
      if env.checkoutFails then
        [GitCmd.checkout branch, GitCmd.checkoutTracking branch ("origin/" ++ branch)]
      else [GitCmd.checkout branch]
    (GitCmd.setFetchRefspec :: fetchCmd :: checkoutCmds
      ++ [GitCmd.resetHard ("origin/" ++ branch)], workDir)
  else
    ([GitCmd.clone repoUrl workDir branch], workDir)

/-! ### Command gateway (Docker terminal service) -/

/-- `ALLOWED_COMMANDS`, in source order. -/
def ALLOWED_COMMANDS : List String :=
  ["ls", "cat", "pwd", "echo", "env", "whoami",
   "df", "du", "ps", "top", "head", "tail",
   "grep", "find", "wc", "date", "uptime",
   "which", "printenv", "hostname", "uname",
   "id", "free", "stat", "file", "sort", "uniq",
   "tr", "cut", "awk", "sed", "less", "more",
   "mkdir", "touch", "cp", "mv", "cd",
   "npm", "node", "python", "pip",
   "curl", "wget"]

/-- `command.trim().split(/\s+/)[0]`: the first whitespace-delimited token
(empty when the command is all whitespace). -/
def firstToken (command : String) : String :=
  ⟨(command.data.dropWhile Char.isWhitespace).takeWhile (fun c => ¬ c.isWhitespace)⟩

/-- The validation error listing the permitted set:
`[...ALLOWED_COMMANDS].sort().join(', ')`. -/
def notAllowedMessage (baseCommand : String) : String :=
  "Command \"" ++ baseCommand ++ "\" is not allowed. Permitted commands: "
    ++ String.intercalate ", " (ALLOWED_COMMANDS.mergeSort (fun a b => decide (a ≤ b)))

/-- `DockerTerminalService.validateCommand`: throw on an all-whitespace
command, then throw the allow-list error unless the first token is in
`ALLOWED_COMMANDS`. -/
def validateCommand (command : String) : Except String Unit :=
  if command.data.all Char.isWhitespace then
    Except.error "Command cannot be empty"
  else if ALLOWED_COMMANDS.contains (firstToken command) then
    Except.ok ()
  else
    Except.error (notAllowedMessage (firstToken command))

/-- `DockerTerminalService.executeCommand`: validate, then hand the
original (unmodified) command string to `runInContainer`.  A returned
`Except.ok` pair is exactly what reaches the container engine; an
`Except.error` is thrown before any engine interaction. -/
def executeCommand (containerName command : String) : Except String (String × String) :=
  match validateCommand command with
  | Except.error e => Except.error e
  | Except.ok _ => Except.ok (containerName, command)

/-! ### Deployment orchestrator (`DeploymentService` in
`src/lib/get-session.ts`) -/

/-- The error object thrown by `queue.add`, as inspected by
`createDeployment`'s catch block: its `code` property, its `message`, and
whether it is an `AggregateError`. -/
structure QueueError where
  code : Option String
  message : String
  isAggregateError : Bool
deriving DecidableEq, Repr

/-- Substring occurrence over character lists: the pattern is a prefix of
some suffix. -/
def charListIncludes (pat : List Char) : List Char → Bool
  | [] => pat.isEmpty
  | c :: cs => pat.isPrefixOf (c :: cs) || charListIncludes pat cs

/-- JavaScript `String.prototype.includes`: the pattern occurs somewhere in
the string. -/
def messageIncludes (msg pat : String) : Bool :=
  charListIncludes pat.data msg.data

/-- The `isConnectionError` classification in `createDeployment`'s catch
block. -/
def isConnectionError (e : QueueError) : Bool :=
  e.code == some "ECONNREFUSED" || messageIncludes e.message "ECONNREFUSED"
    || e.isAggregateError

/-- What `createDeployment` does after its repository writes: the outcome
visible to the caller. -/
inductive CreateOutcome where
  /-- `NotFoundError('Project')` (absent project or ownership mismatch). -/
  | notFound
  /-- The persisted QUEUED deployment is returned. -/
  | returned (d : Deployment)
  /-- The queue error is rethrown to the caller. -/
  | raised (e : QueueError)
deriving DecidableEq, Repr

/-- The row `deploymentRepo.create({ projectId, status: 'QUEUED' })`
persists: every nullable column starts null. -/
def newDeployment (newId projectId : Nat) : Deployment :=
  { id := newId, projectId := projectId, status := Status.QUEUED,
    buildStep := none, containerPort := none, subdomain := none,
    logs := none, startedAt := none, completedAt := none }

/-- `DeploymentService.createDeployment(projectId, userId)`.
`queueResult = none` models a successful `queue.add`; `some e` models
`queue.add` throwing `e`.  Returns the deployment table after the call and
the caller-visible outcome. -/
def createDeployment (ps : List Project) (s : DeploymentTable)
    (projectId userId newId : Nat) (queueResult : Option QueueError) :
    DeploymentTable × CreateOutcome :=
  match findProject ps projectId with
  | none => (s, CreateOutcome.notFound)
  | some p =>
    if p.userId ≠ userId then (s, CreateOutcome.notFound)
    else
      let d := newDeployment newId projectId
      let s1 := s ++ [d]
      match queueResult with
      | none => (s1, CreateOutcome.returned d)
      | some e =>
        if isConnectionError e then (s1, CreateOutcome.returned d)
        else (s1, CreateOutcome.raised e)

/-- How the three external pipeline steps inside `buildAndDeploy` end:
`gitService.ensureRepo` (work directory or thrown error),
`dockerService.buildImage` (image name or thrown error), and
`dockerService.runContainer` (host port or thrown error). -/
structure PipelineEnv where
  cloneResult : Except String String
  buildResult : Except String String
  runResult : Except String Nat
deriving Repr

/-- The catch-block update of `buildAndDeploy`:
`{ status: 'FAILED', buildStep: null, completedAt: new Date() }`.
No other column — in particular not `logs` — is written. -/
def markFailed (s : DeploymentTable) (deploymentId t1 : Nat) : DeploymentTable :=
  updateDeployment s deploymentId
    (fun d => { d with status := Status.FAILED, buildStep := none, completedAt := some t1 })

/-- The empty-repository-URL update: `{ status: 'FAILED' }` only. -/
def markFailedNoTimestamp (s : DeploymentTable) (deploymentId : Nat) : DeploymentTable :=
  updateDeployment s deploymentId (fun d => { d with status := Status.FAILED })

/-- `{ status: 'BUILDING', buildStep: 'CLONING', startedAt }`. -/
def markBuilding (s : DeploymentTable) (deploymentId t0 : Nat) : DeploymentTable :=
  updateDeployment s deploymentId
    (fun d => { d with status := Status.BUILDING, buildStep := some BuildStep.CLONING,
                       startedAt := some t0 })

/-- `{ buildStep: step }`. -/
def markStep (s : DeploymentTable) (deploymentId : Nat) (step : BuildStep) : DeploymentTable :=
  updateDeployment s deploymentId (fun d => { d with buildStep := some step })

/-- The success update: `{ status: 'DEPLOYED', buildStep: null,
containerPort, subdomain: slug, completedAt: new Date() }`. -/
def markDeployed (s : DeploymentTable) (deploymentId port : Nat) (slug : String)
    (t1 : Nat) : DeploymentTable :=
  updateDeployment s deploymentId
    (fun d => { d with status := Status.DEPLOYED, buildStep := none,
                       containerPort := some port, subdomain := some slug,
                       completedAt := some t1 })

/-- `DeploymentService.buildAndDeploy(deploymentId)` as a sequence of
persisted table states.  The first component lists, in order, the table
after every repository write the call performs (so the last entry, when
any, is the final table); the second component is `Except.ok ()` when the
call returns normally and `Except.error e` when it rethrows `e`.
`t0` is the `startedAt` instant, `t1` the `completedAt` instant. -/
def buildAndDeploy (ps : List Project) (env : PipelineEnv) (t0 t1 : Nat)
    (s : DeploymentTable) (deploymentId : Nat) :
    List DeploymentTable × Except String Unit :=
  match findDeployment s deploymentId with
  | none => ([], Except.ok ())
  | some d =>
    match findProject ps d.projectId with
    | none => ([], Except.ok ())
    | some p =>
      if p.githubUrl = "" then
        ([markFailedNoTimestamp s deploymentId], Except.ok ())
      else
        let s1 := markBuilding s deploymentId t0
        match env.cloneResult with
        | Except.error e => ([s1, markFailed s1 deploymentId t1], Except.error e)
        | Except.ok _ =>
          let s2 := markStep s1 deploymentId BuildStep.BUILDING_IMAGE
          match env.buildResult with
          | Except.error e => ([s1, s2, markFailed s2 deploymentId t1], Except.error e)
          | Except.ok _ =>
            let s3 := markStep s2 deploymentId BuildStep.STARTING
            match env.runResult with
            | Except.error e => ([s1, s2, s3, markFailed s3 deploymentId t1], Except.error e)
            | Except.ok port =>
              let s4 := clearSubdomainForOtherDeployments s3 p.id p.slug deploymentId
              let s5 := markDeployed s4 deploymentId port p.slug t1
              ([s1, s2, s3, s4, s5], Except.ok ())


/-! ### Concrete fixtures used by closed theorems -/

/-- A project with a non-empty repository URL. -/
def sampleProject : Project :=
  { id := 1, userId := 7, slug := "site",
    githubUrl := "https://git.example.test/u/site.git", type := "STATIC",
    branch := "main" }

/-- A project whose repository URL is the empty string. -/
def emptyUrlProject : Project :=
  { id := 2, userId := 7, slug := "void", githubUrl := "", type := "STATIC",
    branch := "main" }

/-- A pipeline run where every external step succeeds. -/
def okPipelineEnv : PipelineEnv :=
  { cloneResult := Except.ok "/projects/site",
    buildResult := Except.ok "dropdeploy/site:latest",
    runResult := Except.ok 8123 }

/-- A pipeline run whose clone step throws. -/
def cloneFailPipelineEnv : PipelineEnv :=
  { cloneResult := Except.error "fatal: repository not found",
    buildResult := Except.ok "dropdeploy/site:latest",
    runResult := Except.ok 8123 }

/-- A build whose stream finishes cleanly but whose image is missing. -/
def missingImageEnv : BuildEnv :=
  { streamError := none, errorChunk := none, imageExists := false,
    buildLogTail := "" }

/-- The queue error ioredis raises when Redis is down. -/
def connRefusedError : QueueError :=
  { code := some "ECONNREFUSED",
    message := "connect ECONNREFUSED 127.0.0.1:6379", isAggregateError := false }

/-- A deployment table in which deployment 0 of project 1 currently holds
the subdomain `site` and deployment 1 is freshly queued. -/
def twoDeploymentTable : DeploymentTable :=
  [{ id := 0, projectId := 1, status := Status.DEPLOYED, buildStep := none,
     containerPort := some 8042, subdomain := some "site", logs := none,
     startedAt := some 1, completedAt := some 2 },
   newDeployment 1 1]

/-! ### The subdomain-uniqueness invariant -/

/-- "At most one deployment of a project holds a given non-null subdomain":
any two rows with the same `projectId` and the same non-null `subdomain`
are the same row (same `id`). -/
abbrev subdomainUnique (s : DeploymentTable) : Prop :=
  ∀ d1 ∈ s, ∀ d2 ∈ s, d1.projectId = d2.projectId → d1.subdomain ≠ none →
    d1.subdomain = d2.subdomain → d1.id = d2.id

theorem clearPointwise_id (pid : Nat) (sub : String) (ex : Nat) (d : Deployment) :
    (clearPointwise pid sub ex d).id = d.id := by
  by_cases h : d.projectId = pid ∧ d.subdomain = some sub ∧ d.id ≠ ex <;>
    simp [clearPointwise, h]

theorem clearPointwise_projectId (pid : Nat) (sub : String) (ex : Nat) (d : Deployment) :
    (clearPointwise pid sub ex d).projectId = d.projectId := by
  by_cases h : d.projectId = pid ∧ d.subdomain = some sub ∧ d.id ≠ ex <;>
    simp [clearPointwise, h]

/-- Clearing either leaves a row's subdomain alone or nulls it. -/
theorem clearPointwise_subdomain (pid : Nat) (sub : String) (ex : Nat) (d : Deployment) :
    (clearPointwise pid sub ex d).subdomain = d.subdomain ∨
      (clearPointwise pid sub ex d).subdomain = none := by
  by_cases h : d.projectId = pid ∧ d.subdomain = some sub ∧ d.id ≠ ex
  · right; simp [clearPointwise, h]
  · left; simp [clearPointwise, h]

/-- After the clearing pass, no row of the project other than the excluded
one holds the subdomain. -/
theorem clearPointwise_cleared (pid : Nat) (sub : String) (ex : Nat) (d : Deployment)
    (hproj : d.projectId = pid) (hid : d.id ≠ ex) :
    (clearPointwise pid sub ex d).subdomain ≠ some sub := by
  by_cases h : d.projectId = pid ∧ d.subdomain = some sub ∧ d.id ≠ ex
  · simp [clearPointwise, h]
  · simp only [clearPointwise, if_neg h]
    intro hb
    exact h ⟨hproj, hb, hid⟩

/-- A pointwise table rewrite that keeps `id`, `projectId` and `subdomain`
preserves subdomain uniqueness. -/
theorem subdomainUnique_map (s : DeploymentTable) (g : Deployment → Deployment)
    (hg : ∀ d, (g d).id = d.id ∧ (g d).projectId = d.projectId ∧
      (g d).subdomain = d.subdomain)
    (hinv : subdomainUnique s) : subdomainUnique (s.map g) := by
  intro d1' h1 d2' h2 hproj hne hsub
  rcases List.mem_map.mp h1 with ⟨d1, hd1, rfl⟩
  rcases List.mem_map.mp h2 with ⟨d2, hd2, rfl⟩
  obtain ⟨hi1, hp1, hs1⟩ := hg d1
  obtain ⟨hi2, hp2, hs2⟩ := hg d2
  rw [hi1, hi2]
  exact hinv d1 hd1 d2 hd2 (by rw [← hp1, ← hp2, hproj])
    (by rw [← hs1]; exact hne) (by rw [← hs1, ← hs2, hsub])

/-- An `update` by id that does not touch `id`, `projectId` or `subdomain`
preserves subdomain uniqueness. -/
theorem subdomainUnique_update (s : DeploymentTable) (uid : Nat)
    (f : Deployment → Deployment)
    (hf : ∀ d, (f d).id = d.id ∧ (f d).projectId = d.projectId ∧
      (f d).subdomain = d.subdomain)
    (hinv : subdomainUnique s) : subdomainUnique (updateDeployment s uid f) := by
  apply subdomainUnique_map s _ _ hinv
  intro d
  by_cases h : d.id = uid <;> simp [h, hf d]

/-- Clearing subdomains never creates a new holder, so it preserves
subdomain uniqueness. -/
theorem subdomainUnique_clear (s : DeploymentTable) (pid : Nat) (sub : String)
    (ex : Nat) (hinv : subdomainUnique s) :
    subdomainUnique (clearSubdomainForOtherDeployments s pid sub ex) := by
  intro d1' h1 d2' h2 hproj hne hsub
  rw [clearSubdomainForOtherDeployments] at h1 h2
  rcases List.mem_map.mp h1 with ⟨d1, hd1, rfl⟩
  rcases List.mem_map.mp h2 with ⟨d2, hd2, rfl⟩
  have hs1 : (clearPointwise pid sub ex d1).subdomain = d1.subdomain := by
    rcases clearPointwise_subdomain pid sub ex d1 with h | h
    · exact h
    · exact absurd h hne
  have hs2 : (clearPointwise pid sub ex d2).subdomain = d2.subdomain := by
    rcases clearPointwise_subdomain pid sub ex d2 with h | h
    · exact h
    · rw [hsub] at hne; exact absurd h hne
  rw [clearPointwise_id, clearPointwise_id]
  exact hinv d1 hd1 d2 hd2
    (by rw [← clearPointwise_projectId pid sub ex d1,
            ← clearPointwise_projectId pid sub ex d2, hproj])
    (by rw [← hs1]; exact hne)
    (by rw [← hs1, ← hs2, hsub])

/-- Transport of "every row carrying the pipeline's deployment id belongs
to the pipeline's project" across an `update` that keeps `id` and
`projectId`. -/
theorem rowsOfId_update (s : DeploymentTable) (uid did pid : Nat)
    (f : Deployment → Deployment)
    (hf : ∀ d, (f d).id = d.id ∧ (f d).projectId = d.projectId)
    (hx : ∀ x ∈ s, x.id = did → x.projectId = pid) :
    ∀ x ∈ updateDeployment s uid f, x.id = did → x.projectId = pid := by
  intro x hm hid
  rw [updateDeployment] at hm
  rcases List.mem_map.mp hm with ⟨y, hy, rfl⟩
  by_cases h : y.id = uid
  · obtain ⟨hfi, hfp⟩ := hf y
    simp only [h, if_pos] at hid ⊢
    rw [hfp]
    exact hx y hy (by rw [← hfi]; exact hid)
  · simp only [h, if_neg, if_false] at hid ⊢
    exact hx y hy hid

/-- Claiming the subdomain right after clearing it off all other rows of
the project preserves subdomain uniqueness, provided every row carrying
the claiming id belongs to the claiming project. -/
theorem subdomainUnique_markDeployed_clear (s : DeploymentTable)
    (pid did port t1 : Nat) (slug : String)
    (hx : ∀ x ∈ s, x.id = did → x.projectId = pid)
    (hinv : subdomainUnique s) :
    subdomainUnique
      (markDeployed (clearSubdomainForOtherDeployments s pid slug did) did port slug t1) := by
  intro d1' h1 d2' h2 hproj hne hsub
  rw [markDeployed, updateDeployment, clearSubdomainForOtherDeployments,
    List.map_map] at h1 h2
  rcases List.mem_map.mp h1 with ⟨d1, hd1, rfl⟩
  rcases List.mem_map.mp h2 with ⟨d2, hd2, rfl⟩
  simp only [Function.comp_apply, clearPointwise_id] at hproj hne hsub ⊢
  by_cases e1 : d1.id = did <;> by_cases e2 : d2.id = did
  · simp only [e1, e2, if_pos, clearPointwise_id]
  · -- d1 is the claiming row, d2 is another row: d2 cannot hold the slug
    exfalso
    simp only [e1, e2, if_pos, if_neg, if_false, clearPointwise_id] at hproj hne hsub
    have hp1 : d1.projectId = pid := hx d1 hd1 e1
    have hp2 : d2.projectId = pid := by
      rw [← clearPointwise_projectId pid slug did d2, ← hproj,
        clearPointwise_projectId, hp1]
    exact clearPointwise_cleared pid slug did d2 hp2 e2 (by rw [← hsub])
  · -- symmetric
    exfalso
    simp only [e1, e2, if_pos, if_neg, if_false, clearPointwise_id] at hproj hne hsub
    have hp2 : d2.projectId = pid := hx d2 hd2 e2
    have hp1 : d1.projectId = pid := by
      rw [← clearPointwise_projectId pid slug did d1, hproj,
        clearPointwise_projectId, hp2]
    exact clearPointwise_cleared pid slug did d1 hp1 e1 (by rw [hsub])
  · -- neither row is the claiming one: reduce to the cleared table
    simp only [e1, e2, if_neg, if_false, clearPointwise_id] at hproj hne hsub ⊢
    have := subdomainUnique_clear s pid slug did hinv
      (clearPointwise pid slug did d1)
      (by rw [clearSubdomainForOtherDeployments]; exact List.mem_map_of_mem _ hd1)
      (clearPointwise pid slug did d2)
      (by rw [clearSubdomainForOtherDeployments]; exact List.mem_map_of_mem _ hd2)
    simp only [clearPointwise_id] at this
    exact this hproj hne hsub
/-- Every intermediate table written by `buildAndDeploy` keeps the
subdomain-uniqueness invariant, assuming row ids are unique keys and the
invariant held at entry. -/
theorem buildAndDeploy_subdomainUnique (ps : List Project) (env : PipelineEnv)
    (t0 t1 : Nat) (s : DeploymentTable) (did : Nat)
    (hids : (s.map Deployment.id).Nodup)
    (hinv : subdomainUnique s) :
    ∀ s' ∈ (buildAndDeploy ps env t0 t1 s did).1, subdomainUnique s' := by
  intro s' hs'
  cases hfd : findDeployment s did with
  | none => simp [buildAndDeploy, hfd] at hs'
  | some d =>
    cases hfp : findProject ps d.projectId with
    | none => simp [buildAndDeploy, hfd, hfp] at hs'
    | some p =>
      have hfd' : s.find? (fun x => x.id = did) = some d := hfd
      have hfp' : ps.find? (fun q => q.id = d.projectId) = some p := hfp
      have hdmem : d ∈ s := List.mem_of_find?_eq_some hfd'
      have hdid : d.id = did := by simpa using List.find?_some hfd'
      have hpid : p.id = d.projectId := by simpa using List.find?_some hfp'
      have hx : ∀ x ∈ s, x.id = did → x.projectId = p.id := by
        intro x hxmem hxid
        have hxd : x = d :=
          List.inj_on_of_nodup_map hids hxmem hdmem (by rw [hxid, hdid])
        rw [hxd, hpid]
      have hinv1 : subdomainUnique (markBuilding s did t0) :=
        subdomainUnique_update s did _ (fun d' => ⟨rfl, rfl, rfl⟩) hinv
      have hx1 : ∀ x ∈ markBuilding s did t0, x.id = did → x.projectId = p.id :=
        rowsOfId_update s did did p.id _ (fun d' => ⟨rfl, rfl⟩) hx
      have hinv2 : subdomainUnique
          (markStep (markBuilding s did t0) did BuildStep.BUILDING_IMAGE) :=
        subdomainUnique_update _ did _ (fun d' => ⟨rfl, rfl, rfl⟩) hinv1
      have hx2 : ∀ x ∈ markStep (markBuilding s did t0) did BuildStep.BUILDING_IMAGE,
          x.id = did → x.projectId = p.id :=
        rowsOfId_update _ did did p.id _ (fun d' => ⟨rfl, rfl⟩) hx1
      have hinv3 : subdomainUnique
          (markStep (markStep (markBuilding s did t0) did BuildStep.BUILDING_IMAGE)
            did BuildStep.STARTING) :=
        subdomainUnique_update _ did _ (fun d' => ⟨rfl, rfl, rfl⟩) hinv2
      have hx3 : ∀ x ∈ markStep (markStep (markBuilding s did t0) did
            BuildStep.BUILDING_IMAGE) did BuildStep.STARTING,
          x.id = did → x.projectId = p.id :=
        rowsOfId_update _ did did p.id _ (fun d' => ⟨rfl, rfl⟩) hx2
      by_cases hurl : p.githubUrl = ""
      · simp only [buildAndDeploy, hfd, hfp, hurl, if_pos, List.mem_singleton] at hs'
        subst hs'
        exact subdomainUnique_update s did _ (fun d' => ⟨rfl, rfl, rfl⟩) hinv
      · cases hclone : env.cloneResult with
        | error e =>
          simp [buildAndDeploy, hfd, hfp, hurl, hclone] at hs'
          rcases hs' with rfl | rfl
          · exact hinv1
          · exact subdomainUnique_update _ did _ (fun d' => ⟨rfl, rfl, rfl⟩) hinv1
        | ok w =>
          cases hbuild : env.buildResult with
          | error e =>
            simp [buildAndDeploy, hfd, hfp, hurl, hclone, hbuild] at hs'
            rcases hs' with rfl | rfl | rfl
            · exact hinv1
            · exact hinv2
            · exact subdomainUnique_update _ did _ (fun d' => ⟨rfl, rfl, rfl⟩) hinv2
          | ok img =>
            cases hrun : env.runResult with
            | error e =>
              simp [buildAndDeploy, hfd, hfp, hurl, hclone, hbuild, hrun] at hs'
              rcases hs' with rfl | rfl | rfl | rfl
              · exact hinv1
              · exact hinv2
              · exact hinv3
              · exact subdomainUnique_update _ did _ (fun d' => ⟨rfl, rfl, rfl⟩) hinv3
            | ok port =>
              simp [buildAndDeploy, hfd, hfp, hurl, hclone, hbuild, hrun] at hs'
              rcases hs' with rfl | rfl | rfl | rfl | rfl
              · exact hinv1
              · exact hinv2
              · exact hinv3
              · exact subdomainUnique_clear _ p.id p.slug did hinv3
              · exact subdomainUnique_markDeployed_clear _ p.id did port t1 p.slug hx3 hinv3

/-! ### Claim theorems -/

/-- C1: the claim says the pipeline's catch block updates the deployment
to FAILED with `buildStep` null and `completedAt` set, persists the tail
of the error message into `logs`, and rethrows.  Evaluating the embedded
`buildAndDeploy` at a failing clone step shows the first three effects and
the rethrow, but the `logs` column stays null: the catch block never
writes it (the repository `update` API cannot even address it), against
the claim and the repository's own documentation. -/
theorem c1_clone_failure_update_leaves_logs_null :
    buildAndDeploy [sampleProject] cloneFailPipelineEnv 3 4 [newDeployment 0 1] 0 =
      ([[{ id := 0, projectId := 1, status := Status.BUILDING,
           buildStep := some BuildStep.CLONING, containerPort := none,
           subdomain := none, logs := none, startedAt := some 3,
           completedAt := none }],
        [{ id := 0, projectId := 1, status := Status.FAILED, buildStep := none,
           containerPort := none, subdomain := none, logs := none,
           startedAt := some 3, completedAt := some 4 }]],
       Except.error "fatal: repository not found") := by
  rfl

/-- C2: the claim says that after `createDeployment` and any
`buildAndDeploy` runs — including the run taken when the project's
repository URL is empty — `completedAt` is non-null iff the status is
DEPLOYED or FAILED.  Evaluating the embedding on the empty-URL run shows
the code marks the deployment FAILED while leaving `completedAt` null,
violating the claimed invariant. -/
theorem c2_empty_repo_url_gives_failed_without_completedAt :
    (buildAndDeploy [emptyUrlProject] okPipelineEnv 3 4
        (createDeployment [emptyUrlProject] [] 2 7 0 none).1 0).1 =
      [[{ id := 0, projectId := 2, status := Status.FAILED, buildStep := none,
          containerPort := none, subdomain := none, logs := none,
          startedAt := none, completedAt := none }]] := by
  rfl

/-- C4: the claim requires every allocated host port to lie in
`[8000, 9999]` and to be unbound at allocation time.  The range bound
holds for every random draw, but the allocator is a pure function of the
draw alone — evaluated at draw 0 it returns 8000 regardless of what is
bound, so the no-collision half of the claim has no support in the code
(the spec itself flags this as a known defect). -/
theorem c4_port_in_range_but_unverified :
    (∀ rand : Nat, 8000 ≤ findAvailablePort rand ∧ findAvailablePort rand ≤ 9999)
    ∧ findAvailablePort 0 = 8000 := by
  constructor
  · intro rand
    unfold findAvailablePort
    have h : rand % 2000 < 2000 := Nat.mod_lt rand (by norm_num)
    omega
  · rfl

/-- C3: before a deployment is marked DEPLOYED, every other deployment of
the same project holding the same subdomain has its subdomain cleared to
null (the marked deployment excluded), and — assuming row ids are unique
keys and the invariant held at entry — every table state written during a
sequential `buildAndDeploy` run has at most one deployment per project
holding any given non-null subdomain. -/
theorem c3_subdomain_uniqueness :
    (∀ (s : DeploymentTable) (pid : Nat) (sub : String) (ex : Nat),
        ∀ x ∈ clearSubdomainForOtherDeployments s pid sub ex,
          x.projectId = pid → x.id ≠ ex → x.subdomain ≠ some sub)
    ∧ (∀ (ps : List Project) (env : PipelineEnv) (t0 t1 : Nat)
        (s : DeploymentTable) (did : Nat),
        (s.map Deployment.id).Nodup → subdomainUnique s →
        ∀ s' ∈ (buildAndDeploy ps env t0 t1 s did).1, subdomainUnique s') := by
  constructor
  · intro s pid sub ex x hm hproj hid
    rw [clearSubdomainForOtherDeployments] at hm
    rcases List.mem_map.mp hm with ⟨y, hy, rfl⟩
    refine clearPointwise_cleared pid sub ex y ?_ ?_
    · rw [← clearPointwise_projectId pid sub ex y]; exact hproj
    · rw [← clearPointwise_id pid sub ex y]; exact hid
  · exact buildAndDeploy_subdomainUnique

/-- C3 witness: a concrete two-row table in which the old deployment holds
the subdomain and a fresh deployment is deployed over it. -/
theorem c3_subdomain_uniqueness_witness :
    ((twoDeploymentTable.map Deployment.id).Nodup ∧ subdomainUnique twoDeploymentTable)
    ∧ (∀ s' ∈ (buildAndDeploy [sampleProject] okPipelineEnv 3 4
          twoDeploymentTable 1).1, subdomainUnique s') :=
  ⟨⟨by decide, by decide⟩,
   c3_subdomain_uniqueness.2 [sampleProject] okPipelineEnv 3 4 twoDeploymentTable 1
     (by decide) (by decide)⟩

/-- C5: `ensureRepo` clones iff `rootDir/slug/.git` does not exist;
otherwise it issues no clone and instead overwrites the origin fetch
refspec, fetches with unshallow-and-prune exactly when the `shallow`
marker file is present (prune only otherwise), checks the branch out —
creating a local tracking branch from `origin/branch` when the plain
checkout fails — and hard-resets to `origin/branch`. -/
theorem c5_ensureRepo_clone_vs_update (env : GitEnv)
    (repoUrl projectsDir slug branch : String) :
    (env.gitDirExists = false →
      (ensureRepo env repoUrl projectsDir slug branch).1 =
        [GitCmd.clone repoUrl (projectsDir ++ "/" ++ slug) branch])
    ∧ (env.gitDirExists = true →
        (∀ u d b, GitCmd.clone u d b ∉ (ensureRepo env repoUrl projectsDir slug branch).1)
        ∧ (ensureRepo env repoUrl projectsDir slug branch).1 =
            GitCmd.setFetchRefspec ::
            (if env.shallowFileExists then GitCmd.fetch ["origin", "--unshallow", "--prune"]
             else GitCmd.fetch ["origin", "--prune"]) ::
            ((if env.checkoutFails then
                [GitCmd.checkout branch,
                 GitCmd.checkoutTracking branch ("origin/" ++ branch)]
              else [GitCmd.checkout branch])
              ++ [GitCmd.resetHard ("origin/" ++ branch)])) := by
  constructor
  · intro h
    simp [ensureRepo, h]
  · intro h
    constructor
    · intro u d b
      by_cases hs : env.shallowFileExists <;> by_cases hc : env.checkoutFails <;>
        simp [ensureRepo, h, hs, hc]
    · simp [ensureRepo, h]

/-- C5 witness: an existing shallow clone whose plain checkout fails. -/
theorem c5_ensureRepo_clone_vs_update_witness :
    (GitEnv.mk true true true).gitDirExists = true
    ∧ ((∀ u d b,
          GitCmd.clone u d b ∉
            (ensureRepo (GitEnv.mk true true true) "https://git.example.test/u/site.git"
              "/projects" "site" "dev").1)
       ∧ (ensureRepo (GitEnv.mk true true true) "https://git.example.test/u/site.git"
            "/projects" "site" "dev").1 =
          [GitCmd.setFetchRefspec, GitCmd.fetch ["origin", "--unshallow", "--prune"],
           GitCmd.checkout "dev", GitCmd.checkoutTracking "dev" "origin/dev",
           GitCmd.resetHard "origin/dev"]) :=
  ⟨rfl,
   (c5_ensureRepo_clone_vs_update (GitEnv.mk true true true)
      "https://git.example.test/u/site.git" "/projects" "site" "dev").2 rfl⟩

/-- C6 counterexample: the claim as stated says every rejected command —
the empty command explicitly included — gets a validation error listing
the permitted set; but the empty command is rejected with the distinct
message `Command cannot be empty`, which does not contain the
permitted-set listing (its `Permitted commands` banner does not occur in
it). -/
theorem c6_empty_command_no_permitted_list :
    executeCommand "dropdeploy-site" "" = Except.error "Command cannot be empty"
    ∧ messageIncludes "Command cannot be empty" "Permitted commands" = false :=
  ⟨rfl, by decide⟩

/-- C6 (amended): a command whose first whitespace-delimited token is in
the allow-list is forwarded to the engine unchanged; any other command is
rejected before any engine interaction with a validation error — the
distinct `Command cannot be empty` message for an empty (all-whitespace)
command, and the message listing the permitted set for every other
rejected command. -/
theorem c6_allowlist_gate (containerName command : String) :
    (ALLOWED_COMMANDS.contains (firstToken command) = true →
      executeCommand containerName command = Except.ok (containerName, command))
    ∧ (ALLOWED_COMMANDS.contains (firstToken command) = false →
      executeCommand containerName command =
        Except.error (if command.data.all Char.isWhitespace then "Command cannot be empty"
          else notAllowedMessage (firstToken command))) := by
  have hws : command.data.all Char.isWhitespace = true → firstToken command = "" := by
    intro h
    have hdrop : command.data.dropWhile Char.isWhitespace = [] := by
      rw [List.dropWhile_eq_nil_iff]
      intro x hx
      exact List.all_eq_true.mp h x hx
    simp [firstToken, hdrop]
  constructor
  · intro hcon
    have hmem : firstToken command ∈ ALLOWED_COMMANDS := by simpa using hcon
    have hnw : ¬ command.data.all Char.isWhitespace = true := by
      intro h
      rw [hws h] at hcon
      exact absurd hcon (by decide)
    unfold executeCommand validateCommand
    simp [hnw, hmem]
  · intro hcon
    have hmem : firstToken command ∉ ALLOWED_COMMANDS := by simpa using hcon
    unfold executeCommand validateCommand
    by_cases hw : command.data.all Char.isWhitespace = true
    · simp [hw]
    · simp [hw, hmem]

/-- C6 witness: `ls -la` is forwarded untouched. -/
theorem c6_allowlist_gate_witness :
    ALLOWED_COMMANDS.contains (firstToken "ls -la") = true
    ∧ executeCommand "dropdeploy-site" "ls -la" =
        Except.ok ("dropdeploy-site", "ls -la") :=
  ⟨by decide, (c6_allowlist_gate "dropdeploy-site" "ls -la").1 (by decide)⟩

/-- C7: when the build stream completes without an error chunk but the
image is absent, the post-stream inspect makes `buildImage` throw the
normalized error naming the missing `start` script, and no image
reference is returned. -/
theorem c7_buildImage_verifies_image (slug : String) (env : BuildEnv)
    (hstream : env.streamError = none) (hchunk : env.errorChunk = none)
    (hmissing : env.imageExists = false) :
    buildImage slug env = Except.error noImageMessage
    ∧ ∀ r, buildImage slug env ≠ Except.ok r := by
  unfold buildImage
  rw [hstream, hchunk, hmissing]
  exact ⟨rfl, fun r h => Except.noConfusion h⟩

/-- C7 witness: a clean stream with no produced image. -/
theorem c7_buildImage_verifies_image_witness :
    (missingImageEnv.streamError = none ∧ missingImageEnv.errorChunk = none
      ∧ missingImageEnv.imageExists = false)
    ∧ (buildImage "site" missingImageEnv = Except.error noImageMessage
       ∧ ∀ r, buildImage "site" missingImageEnv ≠ Except.ok r) :=
  ⟨⟨rfl, rfl, rfl⟩, c7_buildImage_verifies_image "site" missingImageEnv rfl rfl rfl⟩

/-- C9: when the project exists and belongs to the caller and `queue.add`
throws, a transient/connectivity error (per the code's
`isConnectionError` test) is swallowed and the already-persisted QUEUED
deployment is returned, while any other error is rethrown to the caller
(the row staying persisted either way). -/
theorem c9_queue_failure_handling (ps : List Project) (s : DeploymentTable)
    (projectId userId newId : Nat) (e : QueueError) (p : Project)
    (hfind : findProject ps projectId = some p) (howner : p.userId = userId) :
    (isConnectionError e = true →
      createDeployment ps s projectId userId newId (some e) =
        (s ++ [newDeployment newId projectId],
         CreateOutcome.returned (newDeployment newId projectId))
      ∧ (newDeployment newId projectId).status = Status.QUEUED)
    ∧ (isConnectionError e = false →
      createDeployment ps s projectId userId newId (some e) =
        (s ++ [newDeployment newId projectId], CreateOutcome.raised e)) := by
  unfold createDeployment
  rw [hfind]
  constructor
  · intro hc
    exact ⟨by simp [howner, hc], rfl⟩
  · intro hc
    simp [howner, hc]

/-- C9 witness: a Redis connection-refused error at submit time. -/
theorem c9_queue_failure_handling_witness :
    (findProject [sampleProject] 1 = some sampleProject ∧ sampleProject.userId = 7)
    ∧ ((isConnectionError connRefusedError = true →
          createDeployment [sampleProject] [] 1 7 0 (some connRefusedError) =
            ([newDeployment 0 1], CreateOutcome.returned (newDeployment 0 1))
          ∧ (newDeployment 0 1).status = Status.QUEUED)
       ∧ (isConnectionError connRefusedError = false →
          createDeployment [sampleProject] [] 1 7 0 (some connRefusedError) =
            ([newDeployment 0 1], CreateOutcome.raised connRefusedError))) :=
  ⟨⟨rfl, rfl⟩,
   c9_queue_failure_handling [sampleProject] [] 1 7 0 connRefusedError sampleProject
     rfl rfl⟩

/-- C10: for every project type outside the four declared ones, the two
fallbacks disagree: `getDockerfileForProject` returns the STATIC recipe,
whose declared internal port (`CONTAINER_PORTS.STATIC`) is 80, while
`runContainer` falls back to internal port 3000 for the exposed-port and
port-binding configuration. -/
theorem c10_fallback_mismatch (projectType : String)
    (h1 : projectType ≠ "STATIC") (h2 : projectType ≠ "NODEJS")
    (h3 : projectType ≠ "NEXTJS") (h4 : projectType ≠ "DJANGO") :
    getDockerfileForProject projectType = staticDockerfile
    ∧ CONTAINER_PORTS "STATIC" = some 80
    ∧ runContainerInternalPort projectType = 3000 := by
  refine ⟨?_, rfl, ?_⟩
  · unfold getDockerfileForProject DOCKERFILE_TEMPLATES
    simp [h1, h2, h3, h4]
  · unfold runContainerInternalPort CONTAINER_PORTS
    simp [h1, h2, h3, h4]

/-- C10 witness: the undeclared project type `RUBY`. -/
theorem c10_fallback_mismatch_witness :
    (("RUBY" ≠ "STATIC") ∧ ("RUBY" ≠ "NODEJS") ∧ ("RUBY" ≠ "NEXTJS")
      ∧ ("RUBY" ≠ "DJANGO"))
    ∧ (getDockerfileForProject "RUBY" = staticDockerfile
       ∧ CONTAINER_PORTS "STATIC" = some 80
       ∧ runContainerInternalPort "RUBY" = 3000) :=
  ⟨⟨by decide, by decide, by decide, by decide⟩,
   c10_fallback_mismatch "RUBY" (by decide) (by decide) (by decide) (by decide)⟩

end ShipEntri
